import Mathlib

/-!
Shallow embedding of `src/main/io/vtx_control.c` (iNav VTX control logic).

The file under verification owns:
  * a process-wide lock byte `locked` set when the ARMED flag is observed,
  * `vtxUpdateBandAndChannel` and the four increment/decrement entry points,
  * `vtxUpdateActivatedChannel` (activation-condition selector),
  * `vtxCycleBandOrChannel` / `vtxCyclePower` (wraparound cycling),
  * `handleVTXControlButton` (hold-duration classifier and dispatcher).

External collaborators (the VTX driver, the button, the LED, the clock,
`isRangeActive`, `saveConfigAndNotify`) are modelled as explicit inputs and
as an emitted list of driver calls; the timing loop is modelled by the list
of `cmpTimeUs(end, start)` values observed on successive poll iterations.

C `uint8_t` values are embedded as `Nat` (with `≤ 255` hypotheses where a
claim depends on the width), and the C `int` arithmetic of the cycling
functions as `Int` (the intermediate sums fit easily in a machine `int`).
The conversion performed when an `int` expression is passed to a `uint8_t`
parameter is `uint8Of`.
-/

namespace VtxControl

/-- Conversion of a C integer expression to a `uint8_t` argument or variable:
reduction modulo 256.  In particular the literal `-1` passed for a `uint8_t`
step parameter arrives as `255`. -/
def uint8Of (i : Int) : Nat := (i % 256).toNat

/-- Modelled from the spec: `DeviceCapability` supplied by the external VTX
driver collaborator (`vtxCommonGetDeviceCapability`), three counts
(`bandCount`, `channelCount`, `powerCount`); the driver header declaring
`vtxDeviceCapability_t` is not part of this file. -/
structure VtxDeviceCapability where
  bandCount : Nat
  channelCount : Nat
  powerCount : Nat
  deriving Repr, DecidableEq

/-- Modelled from the spec: the responses of the external VTX driver queries
(`getBandAndChannel`, `getPowerIndex`, `getDeviceCapability`), each optional —
`none` is the driver reporting that no info is available. -/
structure VtxDriverReads where
  bandAndChannel : Option (Nat × Nat)
  powerIndex : Option Nat
  capability : Option VtxDeviceCapability
  deriving Repr, DecidableEq

/-- A mutation call emitted towards an external collaborator:
`vtxCommonSetBandAndChannel`, `vtxCommonSetPowerByIndex`, or
`saveConfigAndNotify`. -/
inductive DriverCall where
  | setBandAndChannel (band channel : Nat)
  | setPowerByIndex (powerIndex : Nat)
  | saveConfigAndNotify
  deriving Repr, DecidableEq

/-- Modelled from the spec: `channelRange_t`, an opaque (low, high) range on a
normalized auxiliary input; this core never inspects it, it only hands it to
the external `isRangeActive` predicate. -/
structure ChannelRange where
  startStep : Nat
  endStep : Nat
  deriving Repr, DecidableEq

/-- Modelled from the spec: one `vtxChannelActivationCondition_t` from the
configuration (aux channel index, range, band, channel); read-only here. -/
structure VtxChannelActivationCondition where
  auxChannelIndex : Nat
  band : Nat
  channel : Nat
  range : ChannelRange
  deriving Repr, DecidableEq

/-- `static void vtxUpdateBandAndChannel(uint8_t bandStep, uint8_t channelStep)`.
`armed` is the sampled `ARMING_FLAG(ARMED)`, `locked` the process-wide lock
byte on entry.  Returns the lock byte on exit and the emitted driver calls.
When not locked the function calls `vtxCommonGetBandAndChannel` (result value
ignored; on failure the local variables keep their `0` initialisers) and then
unconditionally calls `vtxCommonSetBandAndChannel(band + bandStep,
channel + channelStep)` — the sums are reduced to `uint8_t` at the call. -/
def vtxUpdateBandAndChannel (armed locked : Bool) (r : VtxDriverReads)
    (bandStep channelStep : Nat) : Bool × List DriverCall :=
  let locked := if armed then true else locked
  if !locked then
    let bc := r.bandAndChannel.getD (0, 0)
    (locked, [DriverCall.setBandAndChannel (uint8Of (bc.1 + bandStep))
                (uint8Of (bc.2 + channelStep))])
  else
    (locked, [])

/-- `void vtxIncrementBand(void)`: `vtxUpdateBandAndChannel(+1, 0)`. -/
def vtxIncrementBand (armed locked : Bool) (r : VtxDriverReads) :
    Bool × List DriverCall :=
  vtxUpdateBandAndChannel armed locked r (uint8Of 1) (uint8Of 0)

/-- `void vtxDecrementBand(void)`: `vtxUpdateBandAndChannel(-1, 0)`. -/
def vtxDecrementBand (armed locked : Bool) (r : VtxDriverReads) :
    Bool × List DriverCall :=
  vtxUpdateBandAndChannel armed locked r (uint8Of (-1)) (uint8Of 0)

/-- `void vtxIncrementChannel(void)`: `vtxUpdateBandAndChannel(0, +1)`. -/
def vtxIncrementChannel (armed locked : Bool) (r : VtxDriverReads) :
    Bool × List DriverCall :=
  vtxUpdateBandAndChannel armed locked r (uint8Of 0) (uint8Of 1)

/-- `void vtxDecrementChannel(void)`: `vtxUpdateBandAndChannel(0, -1)`. -/
def vtxDecrementChannel (armed locked : Bool) (r : VtxDriverReads) :
    Bool × List DriverCall :=
  vtxUpdateBandAndChannel armed locked r (uint8Of 0) (uint8Of (-1))

/-- The `for` loop of `vtxUpdateActivatedChannel`: scan the activation
conditions from index `i` upward, returning the first `(index, condition)`
whose range is active and whose index differs from `lastIndex` (the loop
`break`s after the first hit). -/
def findActiveCondition (isRangeActive : Nat → ChannelRange → Bool)
    (lastIndex : Nat) :
    List VtxChannelActivationCondition → Nat →
      Option (Nat × VtxChannelActivationCondition)
  | [], _ => none
  | c :: rest, i =>
    if isRangeActive c.auxChannelIndex c.range && i != lastIndex then
      some (i, c)
    else
      findActiveCondition isRangeActive lastIndex rest (i + 1)

/-- `void vtxUpdateActivatedChannel(void)`.  `lastIndex` is the function's
`static uint8_t lastIndex` (initialised to `(uint8_t)-1 = 255`).  Returns the
lock byte, the new `lastIndex`, and the emitted driver calls.  The condition
list stands for `vtxConfig()->vtxChannelActivationConditions`, and
`isRangeActive` for the external aux-input predicate. -/
def vtxUpdateActivatedChannel (armed locked : Bool) (lastIndex : Nat)
    (conditions : List VtxChannelActivationCondition)
    (isRangeActive : Nat → ChannelRange → Bool) :
    Bool × Nat × List DriverCall :=
  let locked := if armed then true else locked
  if !locked then
    match findActiveCondition isRangeActive lastIndex conditions 0 with
    | some (i, c) => (locked, i, [DriverCall.setBandAndChannel c.band c.channel])
    | none => (locked, lastIndex, [])
  else
    (locked, lastIndex, [])

/-- The `newChannel` / `newBand` computation of `vtxCycleBandOrChannel`:
`int next = current + step;` (both operands `uint8_t`, promoted to `int`);
`if (next > bound) next = 1; else if (next < 1) next = bound;`. -/
def wrapBandChannel (current step bound : Nat) : Int :=
  let next : Int := (current : Int) + (step : Int)
  if next > (bound : Int) then 1
  else if next < 1 then (bound : Int)
  else next

/-- `void vtxCycleBandOrChannel(const uint8_t bandStep, const uint8_t channelStep)`.
If `vtxCommonGetBandAndChannel` or `vtxCommonGetDeviceCapability` fails the
function returns without any call; otherwise it wraps both indices against the
capability counts and emits one `vtxCommonSetBandAndChannel(newBand, newChannel)`
(the `int` results reduced to the `uint8_t` parameters). -/
def vtxCycleBandOrChannel (r : VtxDriverReads) (bandStep channelStep : Nat) :
    List DriverCall :=
  match r.bandAndChannel, r.capability with
  | some bc, some capability =>
    let newChannel := wrapBandChannel bc.2 channelStep capability.channelCount
    let newBand := wrapBandChannel bc.1 bandStep capability.bandCount
    [DriverCall.setBandAndChannel (uint8Of newBand) (uint8Of newChannel)]
  | _, _ => []

/-- The `newPower` computation of `vtxCyclePower`:
`int next = power + powerStep;`
`if (next >= powerCount) next = 0; else if (next < 0) next = powerCount;`. -/
def wrapPower (power step bound : Nat) : Int :=
  let next : Int := (power : Int) + (step : Int)
  if next ≥ (bound : Int) then 0
  else if next < 0 then (bound : Int)
  else next

/-- `void vtxCyclePower(const uint8_t powerStep)`.  If `vtxCommonGetPowerIndex`
or `vtxCommonGetDeviceCapability` fails, no call is emitted; otherwise one
`vtxCommonSetPowerByIndex(newPower)`. -/
def vtxCyclePower (r : VtxDriverReads) (powerStep : Nat) : List DriverCall :=
  match r.powerIndex, r.capability with
  | some power, some capability =>
    [DriverCall.setPowerByIndex (uint8Of (wrapPower power powerStep capability.powerCount))]
  | _, _ => []

/-- One iteration of the threshold chain in `handleVTXControlButton`:
`diff = cmpTimeUs(end, start)` against the ordered bands, leaving
`actionCounter` unchanged when no band matches (i.e. `diff ≤ 25000`). -/
def classifyHold (diff : Int) (actionCounter : Nat) : Nat :=
  if 25000 < diff ∧ diff ≤ 1000000 then 4
  else if 1000000 < diff ∧ diff ≤ 3000000 then 3
  else if 3000000 < diff ∧ diff ≤ 5000000 then 2
  else if 5000000 < diff then 1
  else actionCounter

/-- The `while (buttonAPressed())` loop of `handleVTXControlButton`, restricted
to the state that decides the dispatched action: `actionCounter` (starting at
`0`) and `buttonWasPressed` (set whenever `actionCounter` is nonzero).  `polls`
is the sequence of `cmpTimeUs(end, start)` values seen on the iterations; the
LED blink bookkeeping touches neither variable. -/
def holdLoop (polls : List Int) : Nat × Bool :=
  polls.foldl
    (fun s diff =>
      let a := classifyHold diff s.1
      (a, s.2 || (a != 0)))
    (0, false)

/-- The tier frozen at button release: the final `actionCounter`. -/
def holdLoopTier (polls : List Int) : Nat := (holdLoop polls).1

/-- `void handleVTXControlButton(void)` after the poll loop: if
`buttonWasPressed` is still false, return with no action; otherwise dispatch
on the final `actionCounter` — 4: `vtxCycleBandOrChannel(0, +1)`,
3: `vtxCycleBandOrChannel(+1, 0)`, 2: `vtxCyclePower(+1)`,
1: `saveConfigAndNotify()`.  Note that the function never reads the `locked`
byte and never samples `ARMING_FLAG`. -/
def handleVTXControlButton (polls : List Int) (r : VtxDriverReads) :
    List DriverCall :=
  let s := holdLoop polls
  if !s.2 then []
  else
    match s.1 with
    | 4 => vtxCycleBandOrChannel r (uint8Of 0) (uint8Of 1)
    | 3 => vtxCycleBandOrChannel r (uint8Of 1) (uint8Of 0)
    | 2 => vtxCyclePower r (uint8Of 1)
    | 1 => [DriverCall.saveConfigAndNotify]
    | _ => []

/-- A driver whose queries all succeed: band 1, channel 1, power index 0,
capability (5 bands, 8 channels, 3 power levels). -/
def sampleReads : VtxDriverReads :=
  { bandAndChannel := some (1, 1), powerIndex := some 0,
    capability := some ⟨5, 8, 3⟩ }

/-- A driver whose queries all succeed with the spec scenario state:
band 5, channel 8, capability (5 bands, 8 channels, 3 power levels). -/
def reads58 : VtxDriverReads :=
  { bandAndChannel := some (5, 8), powerIndex := some 0,
    capability := some ⟨5, 8, 3⟩ }

/-- Position of an action tier in the hold-duration order: tier 0 (debounce
window) is reached first, then — as the hold lengthens — tiers 4, 3, 2, 1 in
that order. -/
def tierRank : Nat → Nat
  | 0 => 0
  | 4 => 1
  | 3 => 2
  | 2 => 3
  | 1 => 4
  | _ => 0

example : uint8Of (-1) = 255 := by decide
example : vtxCycleBandOrChannel sampleReads (uint8Of 0) (uint8Of 1)
    = [DriverCall.setBandAndChannel 1 2] := by decide
example : handleVTXControlButton [500000] sampleReads
    = [DriverCall.setBandAndChannel 1 2] := by decide
example : vtxIncrementBand false false reads58
    = (false, [DriverCall.setBandAndChannel 6 8]) := by decide
example : vtxCyclePower sampleReads (uint8Of (-1))
    = [DriverCall.setPowerByIndex 0] := by decide
example : classifyHold 2000000 4 = 3 := by decide

/-- C4: the hold classifier maps elapsed time to a tier by the fixed ordered
thresholds — tier 4 on (25ms, 1s], tier 3 on (1s, 3s], tier 2 on (3s, 5s],
tier 1 above 5s, and tier 0 (the `actionCounter` untouched from its `0`
initialiser) at or below the 25ms debounce window; in particular 10ms gives
tier 0, 500ms tier 4, 2s tier 3, 4s tier 2 and 6s tier 1. -/
theorem hold_classifier_thresholds :
    (∀ d : Int,
      (d ≤ 25000 → classifyHold d 0 = 0) ∧
      (25000 < d → d ≤ 1000000 → classifyHold d 0 = 4) ∧
      (1000000 < d → d ≤ 3000000 → classifyHold d 0 = 3) ∧
      (3000000 < d → d ≤ 5000000 → classifyHold d 0 = 2) ∧
      (5000000 < d → classifyHold d 0 = 1)) ∧
    classifyHold 10000 0 = 0 ∧ classifyHold 500000 0 = 4 ∧
    classifyHold 2000000 0 = 3 ∧ classifyHold 4000000 0 = 2 ∧
    classifyHold 6000000 0 = 1 := by
  refine ⟨fun d => ?_, by decide, by decide, by decide, by decide, by decide⟩
  unfold classifyHold
  refine ⟨fun h1 => ?_, fun h1 h2 => ?_, fun h1 h2 => ?_, fun h1 h2 => ?_,
    fun h1 => ?_⟩ <;> split_ifs <;> omega

/-- Witness for C4: the theorem applied at the concrete elapsed time 500ms. -/
theorem hold_classifier_thresholds_witness : classifyHold 500000 0 = 4 :=
  (hold_classifier_thresholds.1 500000).2.1 (by decide) (by decide)

/-- C7: if the band/channel read or the capability query fails,
`vtxCycleBandOrChannel` emits no driver call; if the power-index read or the
capability query fails, `vtxCyclePower` emits no driver call — the operation
completes silently as a no-op for every step input. -/
theorem cycle_noop_on_driver_failure :
    ∀ (r : VtxDriverReads) (bandStep channelStep powerStep : Nat),
      ((r.bandAndChannel = none ∨ r.capability = none) →
        vtxCycleBandOrChannel r bandStep channelStep = []) ∧
      ((r.powerIndex = none ∨ r.capability = none) →
        vtxCyclePower r powerStep = []) := by
  intro r bandStep channelStep powerStep
  obtain ⟨bc, p, cap⟩ := r
  refine ⟨fun h => ?_, fun h => ?_⟩ <;>
    cases bc <;> cases p <;> cases cap <;>
      simp_all [vtxCycleBandOrChannel, vtxCyclePower]

/-- Witness for C7: the theorem applied to the reads of a driver whose three
queries all fail. -/
theorem cycle_noop_on_driver_failure_witness :
    vtxCycleBandOrChannel ⟨none, none, none⟩ 0 1 = [] ∧
    vtxCyclePower ⟨none, none, none⟩ 1 = [] :=
  ⟨(cycle_noop_on_driver_failure ⟨none, none, none⟩ 0 1 1).1 (Or.inl rfl),
   (cycle_noop_on_driver_failure ⟨none, none, none⟩ 0 1 1).2 (Or.inl rfl)⟩

/-- C10: the step parameters are `uint8_t`, so a caller writing `-1` is
observed as 255; consequently the `newPower < 0` branch of `vtxCyclePower`
never fires (the function behaves as if that branch were absent, for every
`power` and `powerStep`), a power decrement wraps through the
`newPower >= powerCount` branch to 0 (never to the bound), and a band/channel
decrement wraps through the `> bound` branch to 1 (never through the `< 1`
branch to the bound). -/
theorem unsigned_step_semantics :
    uint8Of (-1) = 255 ∧
    (∀ power powerStep bound : Nat,
      wrapPower power powerStep bound =
        if (power : Int) + (powerStep : Int) ≥ (bound : Int) then 0
        else (power : Int) + (powerStep : Int)) ∧
    (∀ power bound : Nat, bound ≤ 255 →
      wrapPower power (uint8Of (-1)) bound = 0) ∧
    (∀ current bound : Nat, 1 ≤ current → bound ≤ 255 →
      wrapBandChannel current (uint8Of (-1)) bound = 1) := by
  refine ⟨by decide, fun power powerStep bound => ?_, fun power bound h => ?_,
    fun current bound h1 h2 => ?_⟩
  · simp only [wrapPower]
    split_ifs <;> omega
  · have h255 : uint8Of (-1) = 255 := by decide
    rw [h255]
    simp only [wrapPower]
    split_ifs <;> omega
  · have h255 : uint8Of (-1) = 255 := by decide
    rw [h255]
    simp only [wrapBandChannel]
    split_ifs <;> omega

/-- Witness for C10: the theorem applied at power 0 with bound 3 and at
band 1 with bound 8. -/
theorem unsigned_step_semantics_witness :
    wrapPower 0 (uint8Of (-1)) 3 = 0 ∧ wrapBandChannel 1 (uint8Of (-1)) 8 = 1 :=
  ⟨unsigned_step_semantics.2.2.1 0 3 (by decide),
   unsigned_step_semantics.2.2.2 1 8 (by decide) (by decide)⟩

/-- C9 counterexample: the numeric tier is not non-decreasing within a hold —
at 500ms the tier is 4, at 2s it is 3, and 4 ≤ 3 fails although 500ms ≤ 2s. -/
theorem tier_numeric_monotone_counterexample :
    (500000 : Int) ≤ 2000000 ∧ classifyHold 500000 0 = 4 ∧
    classifyHold 2000000 0 = 3 ∧
    ¬ classifyHold 500000 0 ≤ classifyHold 2000000 0 := by decide

/-- C9 (amended): within a single continuous hold the tier's position in the
hold-duration order (0, then 4, 3, 2, 1) is monotonically non-decreasing in
elapsed time: for poll instants `t1 ≤ t2`, the rank of the tier computed at
`t1` is at most the rank of the tier computed at `t2`. -/
theorem tier_rank_monotone (t1 t2 : Int) (h : t1 ≤ t2) :
    tierRank (classifyHold t1 0) ≤ tierRank (classifyHold t2 0) := by
  unfold classifyHold
  split_ifs <;> simp [tierRank] <;> omega

/-- Witness for C9: the amended theorem applied at 500ms and 2s. -/
theorem tier_rank_monotone_witness :
    tierRank (classifyHold 500000 0) ≤ tierRank (classifyHold 2000000 0) :=
  tier_rank_monotone 500000 2000000 (by decide)

/-- C2 counterexample: with channelCount 8, cycling the channel from 1 with
step −1 (the `uint8_t` parameter receives 255) yields channel 1, not the
bound 8 that the claim requires. -/
theorem band_channel_low_wrap_counterexample :
    vtxCycleBandOrChannel sampleReads (uint8Of 0) (uint8Of (-1))
      = [DriverCall.setBandAndChannel 1 1] ∧ (1 : Nat) ≠ 8 := by decide

/-- C2 (amended): for current in [1, bound] with bound ≤ 255 and step in
{+1, −1} (as `uint8_t` values), the emitted index is in [1, bound]; cycling
from the bound with +1 yields 1, and cycling with −1 yields 1 from every
current index (the unsigned step wraps through the `> bound` check), not the
bound.  The second conjunct ties the wrap arithmetic to the driver call
`vtxCycleBandOrChannel` emits on successful queries. -/
theorem cycle_band_channel_range :
    (∀ current step bound : Nat,
      1 ≤ current → current ≤ bound → bound ≤ 255 →
      (step = uint8Of 1 ∨ step = uint8Of (-1)) →
      (1 ≤ uint8Of (wrapBandChannel current step bound) ∧
        uint8Of (wrapBandChannel current step bound) ≤ bound) ∧
      (current = bound → step = uint8Of 1 →
        uint8Of (wrapBandChannel current step bound) = 1) ∧
      (step = uint8Of (-1) →
        uint8Of (wrapBandChannel current step bound) = 1)) ∧
    (∀ (band channel : Nat) (p : Option Nat) (cap : VtxDeviceCapability)
      (bandStep channelStep : Nat),
      vtxCycleBandOrChannel ⟨some (band, channel), p, some cap⟩ bandStep channelStep
        = [DriverCall.setBandAndChannel
            (uint8Of (wrapBandChannel band bandStep cap.bandCount))
            (uint8Of (wrapBandChannel channel channelStep cap.channelCount))]) := by
  constructor
  · intro current step bound h1 h2 h3 hstep
    have hs : step = 1 ∨ step = 255 := by
      rcases hstep with h | h <;> [left; right] <;> simp [h, uint8Of]
    simp only [wrapBandChannel, uint8Of]
    rcases hs with h | h <;> subst h <;>
      refine ⟨⟨?_, ?_⟩, fun hc hs1 => ?_, fun hs255 => ?_⟩ <;>
        first
          | (simp only [uint8Of] at hs255; omega)
          | (split_ifs <;> omega)
  · intro band channel p cap bandStep channelStep
    rfl

/-- Witness for C2: the amended theorem applied at current 8, bound 8 with
step +1 (wrap to 1) and at current 1, bound 8 with step −1 (also 1). -/
theorem cycle_band_channel_range_witness :
    uint8Of (wrapBandChannel 8 (uint8Of 1) 8) = 1 ∧
    uint8Of (wrapBandChannel 1 (uint8Of (-1)) 8) = 1 :=
  ⟨(cycle_band_channel_range.1 8 (uint8Of 1) 8 (by decide) (by decide)
      (by decide) (Or.inl rfl)).2.1 rfl rfl,
   (cycle_band_channel_range.1 1 (uint8Of (-1)) 8 (by decide) (by decide)
      (by decide) (Or.inr rfl)).2.2 rfl⟩

/-- C3 counterexample: with powerCount 3, cycling the power from index 0 with
step −1 (the `uint8_t` parameter receives 255) yields index 0, not the
bound 3 that the claim requires. -/
theorem power_low_wrap_counterexample :
    vtxCyclePower sampleReads (uint8Of (-1)) = [DriverCall.setPowerByIndex 0] ∧
    (0 : Nat) ≠ 3 := by decide

/-- C3 (amended): for current power in [0, bound−1] with bound ≤ 255 and step
in {+1, −1} (as `uint8_t` values), the emitted index is in [0, bound−1]
(hence in [0, bound]); cycling from bound−1 with +1 yields 0, and cycling
with −1 also yields 0 from every current index — the `newPower < 0` low-wrap
to the bound never executes.  The second conjunct ties the wrap arithmetic to
the driver call `vtxCyclePower` emits on successful queries. -/
theorem cycle_power_range :
    (∀ power step bound : Nat,
      power < bound → bound ≤ 255 →
      (step = uint8Of 1 ∨ step = uint8Of (-1)) →
      uint8Of (wrapPower power step bound) < bound ∧
      (power = bound - 1 → step = uint8Of 1 →
        uint8Of (wrapPower power step bound) = 0) ∧
      (step = uint8Of (-1) → uint8Of (wrapPower power step bound) = 0)) ∧
    (∀ (power : Nat) (bc : Option (Nat × Nat)) (cap : VtxDeviceCapability)
      (step : Nat),
      vtxCyclePower ⟨bc, some power, some cap⟩ step
        = [DriverCall.setPowerByIndex
            (uint8Of (wrapPower power step cap.powerCount))]) := by
  constructor
  · intro power step bound h1 h2 hstep
    have hs : step = 1 ∨ step = 255 := by
      rcases hstep with h | h <;> [left; right] <;> simp [h, uint8Of]
    simp only [wrapPower, uint8Of]
    rcases hs with h | h <;> subst h <;>
      refine ⟨?_, fun hc hs1 => ?_, fun hs255 => ?_⟩ <;>
        first
          | (simp only [uint8Of] at hs255; omega)
          | (split_ifs <;> omega)
  · intro power bc cap step
    rfl

/-- Witness for C3: the amended theorem applied at power 2, bound 3 with
step +1 (wrap to 0) and at power 0, bound 3 with step −1 (also 0). -/
theorem cycle_power_range_witness :
    uint8Of (wrapPower 2 (uint8Of 1) 3) = 0 ∧
    uint8Of (wrapPower 0 (uint8Of (-1)) 3) = 0 :=
  ⟨(cycle_power_range.1 2 (uint8Of 1) 3 (by decide) (by decide)
      (Or.inl rfl)).2.1 rfl rfl,
   (cycle_power_range.1 0 (uint8Of (-1)) 3 (by decide) (by decide)
      (Or.inr rfl)).2.2 rfl⟩

/-- C6 counterexample: with capability {bandCount 5, channelCount 8} and
current (band 5, channel 8), the increment-band entry point proposes band 6
(not 1) to the driver, and the increment-channel entry point proposes
channel 9 (not 1): `vtxUpdateBandAndChannel` adds the step without any
wraparound at the capability bound. -/
theorem increment_no_wrap_counterexample :
    vtxIncrementBand false false reads58
      = (false, [DriverCall.setBandAndChannel 6 8]) ∧
    vtxIncrementChannel false false reads58
      = (false, [DriverCall.setBandAndChannel 5 9]) ∧
    vtxIncrementBand false false reads58
      ≠ (false, [DriverCall.setBandAndChannel 1 8]) ∧
    vtxIncrementChannel false false reads58
      ≠ (false, [DriverCall.setBandAndChannel 5 1]) := by decide

/-- C6 (amended): with capability {bandCount 5, channelCount 8} and current
(band 5, channel 8), the direct increment entry points propose band 6 and
channel 9 — they never consult the capability and do not wrap; wrapping at
the capability bound is performed only by `vtxCycleBandOrChannel`, which in
the same state proposes band 1 (for a band step) and channel 1 (for a
channel step). -/
theorem increment_entry_points_no_wrap :
    vtxIncrementBand false false reads58
      = (false, [DriverCall.setBandAndChannel 6 8]) ∧
    vtxIncrementChannel false false reads58
      = (false, [DriverCall.setBandAndChannel 5 9]) ∧
    vtxCycleBandOrChannel reads58 (uint8Of 1) (uint8Of 0)
      = [DriverCall.setBandAndChannel 1 8] ∧
    vtxCycleBandOrChannel reads58 (uint8Of 0) (uint8Of 1)
      = [DriverCall.setBandAndChannel 5 1] := by decide

/-- Once the `actionCounter` is nonzero it never returns to zero: every
threshold branch assigns a nonzero tier, and the fall-through keeps the
previous value. -/
theorem classifyHold_ne_zero (d : Int) (a : Nat) (h : a ≠ 0) :
    classifyHold d a ≠ 0 := by
  unfold classifyHold
  split_ifs <;> simp_all

/-- Invariant of the poll loop: `buttonWasPressed` is set exactly when the
current `actionCounter` is nonzero. -/
theorem holdLoop_foldl_pressed (polls : List Int) :
    ∀ (a : Nat) (b : Bool), b = (a != 0) →
      (polls.foldl
        (fun s diff =>
          let x := classifyHold diff s.1
          (x, s.2 || (x != 0))) (a, b)).2
        = ((polls.foldl
            (fun s diff =>
              let x := classifyHold diff s.1
              (x, s.2 || (x != 0))) (a, b)).1 != 0) := by
  induction polls with
  | nil => intro a b h; simpa using h
  | cons d rest ih =>
    intro a b h
    simp only [List.foldl]
    apply ih
    by_cases ha : a = 0
    · subst ha
      simp only [bne_self_eq_false] at h
      subst h
      simp
    · have hx := classifyHold_ne_zero d a ha
      have hb : b = true := by simp [h, ha]
      simp [hb, hx]

/-- At the end of the poll loop, `buttonWasPressed` holds iff the final
`actionCounter` is nonzero. -/
theorem holdLoop_pressed_iff (polls : List Int) :
    (holdLoop polls).2 = ((holdLoop polls).1 != 0) :=
  holdLoop_foldl_pressed polls 0 false rfl

/-- C5: on button release the handler performs exactly the single action
selected by the tier frozen at release — tier 4 cycles the channel by +1,
tier 3 cycles the band by +1, tier 2 cycles the power by +1, tier 1 persists
the configuration, and tier 0 (the press never left the debounce window, so
`buttonWasPressed` stayed false) performs no action at all. -/
theorem release_dispatch_by_tier (polls : List Int) (r : VtxDriverReads) :
    handleVTXControlButton polls r =
      if holdLoopTier polls = 4 then vtxCycleBandOrChannel r 0 1
      else if holdLoopTier polls = 3 then vtxCycleBandOrChannel r 1 0
      else if holdLoopTier polls = 2 then vtxCyclePower r 1
      else if holdLoopTier polls = 1 then [DriverCall.saveConfigAndNotify]
      else [] := by
  have hb := holdLoop_pressed_iff polls
  unfold handleVTXControlButton holdLoopTier
  rcases hfold : holdLoop polls with ⟨a, b⟩
  rw [hfold] at hb
  simp only at hb
  simp only
  subst hb
  rcases a with _ | _ | _ | _ | _ | n <;> simp [uint8Of]

/-- C1 counterexample: the lock is observed set (`ARMING_FLAG` seen true by
`vtxUpdateBandAndChannel`, which returns the lock byte as 1 and suppresses its
own driver call), yet a button hold reaching tier 4 still produces a driver
mutation call on release — `handleVTXControlButton` and
`vtxCycleBandOrChannel` never read the lock byte. -/
theorem lock_gate_counterexample :
    (vtxUpdateBandAndChannel true false sampleReads (uint8Of 1) (uint8Of 0)).1
      = true ∧
    vtxCycleBandOrChannel sampleReads (uint8Of 0) (uint8Of 1)
      = [DriverCall.setBandAndChannel 1 2] ∧
    handleVTXControlButton [500000] sampleReads
      = [DriverCall.setBandAndChannel 1 2] ∧
    [DriverCall.setBandAndChannel 1 2] ≠ ([] : List DriverCall) := by decide

/-- C1 (amended): once the lock byte is set, every subsequent call to
`vtxUpdateBandAndChannel` (hence to the four increment/decrement entry
points) and to `vtxUpdateActivatedChannel` produces zero driver calls and
leaves the lock set, for all subsequent inputs; the lock does not gate
`vtxCycleBandOrChannel`, `vtxCyclePower` or the button handler — a release at
tier 4 still emits a driver call (last conjunct), and the button handler
never samples the armed flag. -/
theorem lock_gate_scope :
    ∀ (armed : Bool) (r : VtxDriverReads) (bandStep channelStep lastIndex : Nat)
      (conds : List VtxChannelActivationCondition)
      (act : Nat → ChannelRange → Bool),
      vtxUpdateBandAndChannel armed true r bandStep channelStep = (true, []) ∧
      vtxUpdateActivatedChannel armed true lastIndex conds act
        = (true, lastIndex, []) ∧
      handleVTXControlButton [500000] sampleReads
        = [DriverCall.setBandAndChannel 1 2] := by
  intro armed r bandStep channelStep lastIndex conds act
  refine ⟨?_, ?_, by decide⟩ <;>
    cases armed <;>
      simp [vtxUpdateBandAndChannel, vtxUpdateActivatedChannel]

/-- Everything `findActiveCondition` selects when started at offset `i0` is a
genuine first hit: the returned index is at or past `i0`, the returned
condition sits at that index, it is active, its index differs from
`lastIndex`, and every active condition strictly before it (at or past `i0`)
has index `lastIndex`. -/
theorem findActiveCondition_some_spec (act : Nat → ChannelRange → Bool)
    (last : Nat) :
    ∀ (conds : List VtxChannelActivationCondition) (i0 i : Nat)
      (c : VtxChannelActivationCondition),
      findActiveCondition act last conds i0 = some (i, c) →
      i0 ≤ i ∧ conds.get? (i - i0) = some c ∧
      act c.auxChannelIndex c.range = true ∧ i ≠ last ∧
      ∀ j cj, i0 ≤ j → j < i → conds.get? (j - i0) = some cj →
        act cj.auxChannelIndex cj.range = true → j = last := by
  intro conds
  induction conds with
  | nil =>
    intro i0 i c h
    simp [findActiveCondition] at h
  | cons c0 rest ih =>
    intro i0 i c h
    unfold findActiveCondition at h
    by_cases hc : (act c0.auxChannelIndex c0.range && (i0 != last)) = true
    · rw [if_pos hc] at h
      obtain ⟨hi, hcc⟩ : i0 = i ∧ c0 = c := by
        constructor <;> injection h with h1 <;> [exact congrArg Prod.fst h1;
          exact congrArg Prod.snd h1]
      subst hi
      subst hcc
      simp only [Bool.and_eq_true, bne_iff_ne, ne_eq] at hc
      refine ⟨Nat.le_refl _, by simp, hc.1, hc.2, ?_⟩
      intro j cj hj1 hj2 _ _
      omega
    · rw [if_neg hc] at h
      obtain ⟨h1, h2, h3, h4, h5⟩ := ih (i0 + 1) i c h
      refine ⟨by omega, ?_, h3, h4, ?_⟩
      · have hsub : i - i0 = (i - (i0 + 1)) + 1 := by omega
        rw [hsub]
        simpa using h2
      · intro j cj hj1 hj2 hget hact
        by_cases hji : j = i0
        · have hcj : cj = c0 := by
            have h00 := hget
            rw [hji, Nat.sub_self] at h00
            simpa using h00.symm
          subst hcj
          simp only [Bool.and_eq_true, bne_iff_ne, ne_eq] at hc
          rw [hji]
          by_contra hne
          exact hc ⟨hact, hne⟩
        · have hj1' : i0 + 1 ≤ j := by omega
          have hsub : j - i0 = (j - (i0 + 1)) + 1 := by omega
          rw [hsub] at hget
          exact h5 j cj hj1' hj2 (by simpa using hget) hact

/-- When every active condition at or past offset `i0` carries the index
`lastIndex`, the scan finds nothing. -/
theorem findActiveCondition_none_spec (act : Nat → ChannelRange → Bool)
    (last : Nat) :
    ∀ (conds : List VtxChannelActivationCondition) (i0 : Nat),
      (∀ k ck, conds.get? k = some ck →
        act ck.auxChannelIndex ck.range = true → i0 + k = last) →
      findActiveCondition act last conds i0 = none := by
  intro conds
  induction conds with
  | nil => intro i0 _; rfl
  | cons c0 rest ih =>
    intro i0 h
    unfold findActiveCondition
    have h0 : act c0.auxChannelIndex c0.range = true → i0 = last := by
      intro ha
      simpa using h 0 c0 (by simp) ha
    have hcond : ¬ (act c0.auxChannelIndex c0.range && (i0 != last)) = true := by
      simp only [Bool.and_eq_true, bne_iff_ne, ne_eq, not_and]
      intro ha hne
      exact hne (h0 ha)
    rw [if_neg hcond]
    refine ih (i0 + 1) ?_
    intro k ck hg ha
    have := h (k + 1) ck (by simpa using hg) ha
    omega

/-- C8: on an unlocked, unarmed poll, `vtxUpdateActivatedChannel` applies the
first active condition (in configuration order) whose index differs from the
last-applied index — emitting exactly one direct set-band/channel call and
updating the last-applied index to it — and when every active condition is
the one last applied, it emits no driver call and leaves the index unchanged
(so the same condition is never re-applied on consecutive polls while it
remains the only active one). -/
theorem activation_selector_behavior :
    ∀ (act : Nat → ChannelRange → Bool) (last : Nat)
      (conds : List VtxChannelActivationCondition),
      (∀ i c, findActiveCondition act last conds 0 = some (i, c) →
        vtxUpdateActivatedChannel false false last conds act
            = (false, i, [DriverCall.setBandAndChannel c.band c.channel]) ∧
        conds.get? i = some c ∧ act c.auxChannelIndex c.range = true ∧
        i ≠ last ∧
        (∀ j cj, j < i → conds.get? j = some cj →
          act cj.auxChannelIndex cj.range = true → j = last)) ∧
      ((∀ k ck, conds.get? k = some ck →
          act ck.auxChannelIndex ck.range = true → k = last) →
        vtxUpdateActivatedChannel false false last conds act
          = (false, last, [])) := by
  intro act last conds
  constructor
  · intro i c h
    obtain ⟨h1, h2, h3, h4, h5⟩ :=
      findActiveCondition_some_spec act last conds 0 i c h
    refine ⟨?_, by simpa using h2, h3, h4, ?_⟩
    · simp [vtxUpdateActivatedChannel, h]
    · intro j cj hj hget hact
      exact h5 j cj (Nat.zero_le j) hj (by simpa using hget) hact
  · intro h
    have hnone : findActiveCondition act last conds 0 = none := by
      refine findActiveCondition_none_spec act last conds 0 ?_
      intro k ck hg ha
      simpa using h k ck hg ha
    simp [vtxUpdateActivatedChannel, hnone]

/-- A sample activation condition: aux channel 7, range (1700, 2100),
band 2, channel 3. -/
def sampleCondition : VtxChannelActivationCondition :=
  ⟨7, 2, 3, ⟨1700, 2100⟩⟩

/-- The aux-input predicate for the witness: only aux channel 7 is in range. -/
def sampleActive (aux : Nat) (_ : ChannelRange) : Bool := aux == 7

/-- Witness for C8: with one active condition and last index 255 (the
`(uint8_t)-1` initialiser), the theorem yields the apply step; with last
index 0 (the condition just applied), it yields the silent poll. -/
theorem activation_selector_behavior_witness :
    vtxUpdateActivatedChannel false false 255 [sampleCondition] sampleActive
      = (false, 0, [DriverCall.setBandAndChannel 2 3]) ∧
    vtxUpdateActivatedChannel false false 0 [sampleCondition] sampleActive
      = (false, 0, []) :=
  ⟨((activation_selector_behavior sampleActive 255 [sampleCondition]).1
      0 sampleCondition (by decide)).1,
   (activation_selector_behavior sampleActive 0 [sampleCondition]).2
      (fun k ck hg _ => by
        match k, hg with
        | 0, hg => rfl
        | k + 1, hg => simp at hg)⟩

end VtxControl
